import Mathlib

/-!
Shallow embedding of `clockifyclient/models.py`: the object-mapping layer of a
Clockify API client. Python dictionary values are modelled by `Val`, Python
`datetime.datetime` by `Datetime` (calendar fields plus an optional timezone),
exceptions by `Except PyErr`. The local timezone offset of the process is an
explicit parameter `loc` (minutes east of UTC) wherever the source consults
`dateutil.tz.tzlocal()`.
-/

/-- A Python value as it occurs in the JSON-derived dictionaries this layer
consumes and produces: `None`, a string, or a nested dictionary. -/
inductive Val where
  | vnone : Val
  | vstr : String → Val
  | vdict : List (String × Val) → Val

/-- A Python dictionary with string keys, as decoded from JSON. -/
abbrev PyDict := List (String × Val)

/-- Python truthiness of a `Val`: `None` is falsy, a string is truthy iff
non-empty, a dict is truthy iff non-empty. -/
def truthy : Val → Bool
  | Val.vnone => false
  | Val.vstr s => !(s == "")
  | Val.vdict l => !l.isEmpty

/-- Lookup of `dict_in[key]`; `none` models a `KeyError`. -/
def pyLookup (d : PyDict) (k : String) : Option Val :=
  match d with
  | [] => none
  | (k₂, v) :: rest => if k₂ = k then some v else pyLookup rest k

/-- Exceptions raised by the source: `ObjectParseException` (with a message;
the source message also interpolates the offending dictionary and underlying
error text, omitted here as immaterial to every claim) and Python `TypeError`. -/
inductive PyErr where
  | objectParse : String → PyErr
  | typeError : PyErr
deriving DecidableEq

/-- A `tzinfo` value: `dateutil.tz.UTC`, `dateutil.tz.tzlocal()`, or a fixed
numeric offset in minutes (as produced by parsing a `+HH:MM` suffix). -/
inductive TZ where
  | utc : TZ
  | tzlocal : TZ
  | fixed : Int → TZ
deriving DecidableEq

/-- Offset in minutes east of UTC of a timezone, given the local offset `loc`
of the process. -/
def tzOffsetMin (loc : Int) : TZ → Int
  | TZ.utc => 0
  | TZ.tzlocal => loc
  | TZ.fixed m => m

/-- A Python `datetime.datetime` at second precision: calendar fields plus an
optional timezone (`none` = naive). -/
structure Datetime where
  year : Nat
  month : Nat
  day : Nat
  hour : Nat
  minute : Nat
  second : Nat
  tz : Option TZ
deriving DecidableEq

/-- Days since 1970-01-01 of a civil date (standard civil-calendar algorithm,
as implemented by the `datetime` arithmetic of CPython). -/
def daysFromCivil (y m d : Nat) : Int :=
  let yi : Int := (y : Int)
  let yy : Int := if m ≤ 2 then yi - 1 else yi
  let era : Int := yy.fdiv 400
  let yoe : Nat := (yy - era * 400).toNat
  let mp : Nat := if 2 < m then m - 3 else m + 9
  let doy : Nat := (153 * mp + 2) / 5 + d - 1
  let doe : Nat := yoe * 365 + yoe / 4 - yoe / 100 + doy
  era * 146097 + (doe : Int) - 719468

/-- Civil date (year, month, day) of a count of days since 1970-01-01. -/
def civilFromDays (z₀ : Int) : Nat × Nat × Nat :=
  let z : Int := z₀ + 719468
  let era : Int := z.fdiv 146097
  let doe : Nat := (z - era * 146097).toNat
  let yoe : Nat := (doe - doe / 1460 + doe / 36524 - doe / 146096) / 365
  let y : Int := era * 400 + (yoe : Int)
  let doy : Nat := doe - (365 * yoe + yoe / 4 - yoe / 100)
  let mp : Nat := (5 * doy + 2) / 153
  let d : Nat := doy - (153 * mp + 2) / 5 + 1
  let m : Nat := if mp < 10 then mp + 3 else mp - 9
  (if m ≤ 2 then (y + 1).toNat else y.toNat, m, d)

/-- Seconds since the epoch of the naive calendar fields of a datetime. -/
def Datetime.toSecs (d : Datetime) : Int :=
  daysFromCivil d.year d.month d.day * 86400
    + (d.hour : Int) * 3600 + (d.minute : Int) * 60 + (d.second : Int)

/-- Datetime with timezone `tz` whose naive fields denote `s` seconds since
the epoch. -/
def Datetime.ofSecs (s : Int) (tz : Option TZ) : Datetime :=
  let days : Int := s.fdiv 86400
  let rem : Nat := (s - days * 86400).toNat
  let ymd := civilFromDays days
  { year := ymd.1, month := ymd.2.1, day := ymd.2.2,
    hour := rem / 3600, minute := rem % 3600 / 60, second := rem % 60,
    tz := tz }

/-- Python `datetime.astimezone(target)`: shift the naive fields by the offset
difference and install the target timezone. A naive datetime is interpreted as
local time, as in Python 3. -/
def astimezone (loc : Int) (d : Datetime) (target : TZ) : Datetime :=
  let selfTz := d.tz.getD TZ.tzlocal
  Datetime.ofSecs
    (d.toSecs - tzOffsetMin loc selfTz * 60 + tzOffsetMin loc target * 60)
    (some target)

/-- Decimal digit character. -/
def digitChar : Nat → Char
  | 0 => '0' | 1 => '1' | 2 => '2' | 3 => '3' | 4 => '4'
  | 5 => '5' | 6 => '6' | 7 => '7' | 8 => '8' | _ => '9'

/-- Decimal digits of `n`, most significant first (`fuel`-bounded recursion). -/
def natCharsAux : Nat → Nat → List Char
  | 0, _ => []
  | fuel + 1, n =>
    if n < 10 then [digitChar n]
    else natCharsAux fuel (n / 10) ++ [digitChar (n % 10)]

/-- Decimal digits of `n`, most significant first. -/
def natChars (n : Nat) : List Char := natCharsAux (n + 1) n

/-- Left-pad a digit list with zeros to width `w` (the behaviour of the
zero-padded `strftime` fields `%Y`, `%m`, `%d`, `%H`, `%M`, `%S`). -/
def zfill (w : Nat) (l : List Char) : List Char :=
  List.replicate (w - l.length) '0' ++ l

/-- Model of `strftime` with the fixed Clockify wire pattern
`%Y-%m-%dT%H:%M:%SZ`, applied to the naive calendar fields of `d`. -/
def strftimeClockify (d : Datetime) : String :=
  ⟨zfill 4 (natChars d.year) ++ ['-'] ++ zfill 2 (natChars d.month) ++ ['-']
    ++ zfill 2 (natChars d.day) ++ ['T'] ++ zfill 2 (natChars d.hour) ++ [':']
    ++ zfill 2 (natChars d.minute) ++ [':'] ++ zfill 2 (natChars d.second)
    ++ ['Z']⟩

/-- Numeric value of a decimal digit character. -/
def digitVal (c : Char) : Option Nat :=
  if c.isDigit then some (c.toNat - 48) else none

/-- Two-digit decimal number. -/
def num2 (a b : Char) : Option Nat :=
  match digitVal a, digitVal b with
  | some x, some y => some (10 * x + y)
  | _, _ => none

/-- Four-digit decimal number. -/
def num4 (a b c d : Char) : Option Nat :=
  match num2 a b, num2 c d with
  | some x, some y => some (100 * x + y)
  | _, _ => none

/-- Gregorian leap year. -/
def isLeap (y : Nat) : Bool :=
  (y % 4 == 0 && y % 100 != 0) || y % 400 == 0

/-- Length of month `m` in year `y`. -/
def daysInMonth (y m : Nat) : Nat :=
  if m == 2 then (if isLeap y then 29 else 28)
  else if m == 4 || m == 6 || m == 9 || m == 11 then 30
  else 31

/-- Range-check parsed fields and build the datetime, mirroring the field
validation the `datetime` constructor performs inside
`dateutil.parser.parse`. -/
def mkParsed (y mo dd h mi s : Nat) (tz : Option TZ) : Option Datetime :=
  if 1 ≤ mo ∧ mo ≤ 12 ∧ 1 ≤ dd ∧ dd ≤ daysInMonth y mo
      ∧ h ≤ 23 ∧ mi ≤ 59 ∧ s ≤ 59 then
    some { year := y, month := mo, day := dd,
           hour := h, minute := mi, second := s, tz := tz }
  else none

/-- Model of `dateutil.parser.parse` on the class of strings this layer exchanges:
`YYYY-MM-DDTHH:MM:SS`, optionally suffixed `Z` (UTC) or `±HH:MM` (fixed
offset). A string with no timezone suffix parses to a naive datetime; any
other shape fails (models the `ValueError` dateutil raises). -/
def parseDate (str : String) : Option Datetime :=
  match str.data with
  | [y1, y2, y3, y4, '-', m1, m2, '-', d1, d2, 'T',
     h1, h2, ':', n1, n2, ':', s1, s2] =>
    match num4 y1 y2 y3 y4, num2 m1 m2, num2 d1 d2,
          num2 h1 h2, num2 n1 n2, num2 s1 s2 with
    | some y, some mo, some dd, some h, some mi, some s =>
      mkParsed y mo dd h mi s none
    | _, _, _, _, _, _ => none
  | [y1, y2, y3, y4, '-', m1, m2, '-', d1, d2, 'T',
     h1, h2, ':', n1, n2, ':', s1, s2, 'Z'] =>
    match num4 y1 y2 y3 y4, num2 m1 m2, num2 d1 d2,
          num2 h1 h2, num2 n1 n2, num2 s1 s2 with
    | some y, some mo, some dd, some h, some mi, some s =>
      mkParsed y mo dd h mi s (some TZ.utc)
    | _, _, _, _, _, _ => none
  | [y1, y2, y3, y4, '-', m1, m2, '-', d1, d2, 'T',
     h1, h2, ':', n1, n2, ':', s1, s2, sg, o1, o2, ':', o3, o4] =>
    match num4 y1 y2 y3 y4, num2 m1 m2, num2 d1 d2,
          num2 h1 h2, num2 n1 n2, num2 s1 s2, num2 o1 o2, num2 o3 o4 with
    | some y, some mo, some dd, some h, some mi, some s, some oh, some om =>
      if sg = '+' then
        mkParsed y mo dd h mi s (some (TZ.fixed ((oh : Int) * 60 + (om : Int))))
      else if sg = '-' then
        mkParsed y mo dd h mi s (some (TZ.fixed (-((oh : Int) * 60 + (om : Int)))))
      else none
    | _, _, _, _, _, _, _, _ => none
  | _ => none

/-- The `ClockifyDatetime` wrapper: holds a (timezone-aware) datetime. -/
structure ClockifyDatetime where
  datetime : Datetime

/-- Constructor `ClockifyDatetime.__init__`: if the given datetime has no
`tzinfo`, attach the local timezone (`dateutil.tz.tzlocal()`); store it. -/
def ClockifyDatetime.ofDatetime (d : Datetime) : ClockifyDatetime :=
  if d.tz = none then ⟨{ d with tz := some TZ.tzlocal }⟩ else ⟨d⟩

/-- Property `ClockifyDatetime.datetime_utc`: this datetime projected to UTC. -/
def ClockifyDatetime.datetime_utc (loc : Int) (c : ClockifyDatetime) : Datetime :=
  astimezone loc c.datetime TZ.utc

/-- Property `ClockifyDatetime.clockify_datetime` (also `__str__`): the UTC
projection rendered with the fixed pattern `%Y-%m-%dT%H:%M:%SZ`. -/
def ClockifyDatetime.clockify_datetime (loc : Int) (c : ClockifyDatetime) : String :=
  strftimeClockify (c.datetime_utc loc)

/-- Classmethod `ClockifyDatetime.init_from_string`: `dateutil` parse then
construct; `none` models the `ValueError` escaping when the string is
unparsable. -/
def ClockifyDatetime.init_from_string (s : String) : Option ClockifyDatetime :=
  (parseDate s).map ClockifyDatetime.ofDatetime

/-- An `APIObject`: an object with only an id (the id is whatever value the
dictionary held). -/
structure APIObject where
  obj_id : Val

/-- Classmethod `APIObject.get_item`: look `key` up in `dict_in`. As in the
source, the `raise_error` parameter is accepted but never consulted: a missing
key always raises `ObjectParseException`. -/
def APIObject.get_item (dict_in : PyDict) (key : String)
    (raise_error : Bool := true) : Except PyErr Val :=
  match pyLookup dict_in key with
  | some v => Except.ok v
  | none => Except.error (PyErr.objectParse ("Could not find key " ++ key))

/-- Classmethod `APIObject.get_datetime`: fetch `key` via `get_item`; a falsy value yields
`None`; otherwise parse through `ClockifyDatetime.init_from_string` and return
the resulting `.datetime`, turning a parse failure into
`ObjectParseException`. A present truthy non-string reaches
`dateutil.parser.parse`, which raises `TypeError`. -/
def APIObject.get_datetime (dict_in : PyDict) (key : String)
    (raise_error : Bool := true) : Except PyErr (Option Datetime) :=
  match APIObject.get_item dict_in key raise_error with
  | Except.error e => Except.error e
  | Except.ok date_str =>
    if truthy date_str then
      match date_str with
      | Val.vstr s =>
        match ClockifyDatetime.init_from_string s with
        | some cd => Except.ok (some cd.datetime)
        | none =>
          Except.error (PyErr.objectParse ("Error parsing " ++ s ++ " to datetime"))
      | _ => Except.error PyErr.typeError
    else Except.ok none

/-- Classmethod `APIObject.init_from_dict`: as written in the source it fetches both `id`
and `name` and then calls `cls(obj_id=…, name=…)`; `APIObject.__init__`
accepts no `name` argument, so the construction raises `TypeError` after both
lookups succeed. -/
def APIObject.init_from_dict (dict_in : PyDict) : Except PyErr APIObject :=
  match APIObject.get_item dict_in "id" true with
  | Except.error e => Except.error e
  | Except.ok _ =>
    match APIObject.get_item dict_in "name" true with
    | Except.error e => Except.error e
    | Except.ok _ => Except.error PyErr.typeError

/-- A `NamedAPIObject`: id plus human-readable name. -/
structure NamedAPIObject where
  obj_id : Val
  name : Val

/-- Classmethod `NamedAPIObject.init_from_dict`: requires both `id` and `name`. -/
def NamedAPIObject.init_from_dict (dict_in : PyDict) : Except PyErr NamedAPIObject :=
  match APIObject.get_item dict_in "id" true with
  | Except.error e => Except.error e
  | Except.ok obj_id =>
    match APIObject.get_item dict_in "name" true with
    | Except.error e => Except.error e
    | Except.ok name => Except.ok ⟨obj_id, name⟩

/-- Constructor `ProjectStub(obj_id)`: a Project with only an id; `name` is `None`. -/
def ProjectStub (objId : Val) : NamedAPIObject := ⟨objId, Val.vnone⟩

/-- A `TimeEntry`: id, start, optional description / project / end, billable
flag (string, defaults to `'false'`). `start` is `Option` because
`get_datetime` can hand the constructor `None`. -/
structure TimeEntry where
  obj_id : Val
  start : Option Datetime
  description : Val := Val.vstr ""
  project : Option NamedAPIObject := none
  end_ : Option Datetime := none
  billable : Val := Val.vstr "false"

/-- Python slice `l[:i]` over a character list (a negative index counts from
the end). -/
def pySliceTo (l : List Char) (i : Int) : List Char :=
  if 0 ≤ i then l.take i.toNat else l.take ((l.length : Int) + i).toNat

/-- Python slice `l[i:]` over a character list (a negative index counts from
the end). -/
def pySliceFrom (l : List Char) (i : Int) : List Char :=
  if 0 ≤ i then l.drop i.toNat else l.drop ((l.length : Int) + i).toNat

/-- Staticmethod `TimeEntry.truncate(msg, length=30)`: if `msg[length:]` is
non-empty, return `msg[:length-3] + "..."`, else `msg` unchanged. -/
def TimeEntry.truncate (msg : String) (length : Int := 30) : String :=
  if pySliceFrom msg.data length ≠ [] then
    String.mk (pySliceTo msg.data (length - 3)) ++ "..."
  else msg

/-- Classmethod `TimeEntry.init_from_dict`: required `timeInterval` (a dict), `id`,
`timeInterval.start`; then `description`, `projectId` (wrapped in a
`ProjectStub` when truthy) and `timeInterval.end` fetched with
`raise_error=False`. -/
def TimeEntry.init_from_dict (dict_in : PyDict) : Except PyErr TimeEntry :=
  match APIObject.get_item dict_in "timeInterval" true with
  | Except.error e => Except.error e
  | Except.ok intervalV =>
    match APIObject.get_item dict_in "id" true with
    | Except.error e => Except.error e
    | Except.ok obj_id =>
      match intervalV with
      | Val.vdict interval =>
        match APIObject.get_datetime interval "start" true with
        | Except.error e => Except.error e
        | Except.ok start =>
          match APIObject.get_item dict_in "description" false with
          | Except.error e => Except.error e
          | Except.ok description =>
            match APIObject.get_item dict_in "projectId" false with
            | Except.error e => Except.error e
            | Except.ok project_id =>
              match APIObject.get_datetime interval "end" false with
              | Except.error e => Except.error e
              | Except.ok endv =>
                Except.ok
                  { obj_id := obj_id, start := start,
                    description := description,
                    project :=
                      if truthy project_id then some (ProjectStub project_id)
                      else none,
                    end_ := endv, billable := Val.vstr "false" }
      | _ => Except.error PyErr.typeError

/-- `TimeEntry.to_dict`: the outbound wire dictionary — `id`, wire-formatted
`start`, `description`, `billable`, then `end` and `projectId` when set,
finally dropping every falsy value. `none` models the `AttributeError` when
`start` is `None`. -/
def TimeEntry.to_dict (loc : Int) (e : TimeEntry) : Option PyDict :=
  match e.start with
  | none => none
  | some st =>
    some ((([("id", e.obj_id),
             ("start", Val.vstr (ClockifyDatetime.clockify_datetime loc
                (ClockifyDatetime.ofDatetime st))),
             ("description", e.description),
             ("billable", e.billable)]
        ++ (match e.end_ with
            | some en => [("end", Val.vstr (ClockifyDatetime.clockify_datetime loc
                (ClockifyDatetime.ofDatetime en)))]
            | none => [])
        ++ (match e.project with
            | some p => [("projectId", p.obj_id)]
            | none => [])).filter (fun kv => truthy kv.2)))

/-- Characters that may occur in a Clockify wire datetime string: digits and
the fixed separators of the pattern, hence never a numeric-offset sign. -/
def wireChar (ch : Char) : Bool :=
  ch.isDigit || ch == '-' || ch == ':' || ch == 'T' || ch == 'Z'

/-- Time entry built in-process with the required fields set, used for the
round-trip claim. -/
def rtEntry : TimeEntry :=
  { obj_id := Val.vstr "a",
    start := some ⟨2023, 1, 1, 10, 0, 0, some TZ.utc⟩,
    description := Val.vstr "work" }

/-- Wire dictionary produced by serializing `rtEntry`. -/
def rtDict : PyDict :=
  [("id", Val.vstr "a"), ("start", Val.vstr "2023-01-01T10:00:00Z"),
   ("description", Val.vstr "work"), ("billable", Val.vstr "false")]

/-- Response dictionary of the C3 example: id and start present, the optional
keys absent. -/
def timeEntryDict3 : PyDict :=
  [("id", Val.vstr "abc"),
   ("timeInterval", Val.vdict [("start", Val.vstr "2023-01-01T10:00:00Z")])]

/-- Naive timestamp used to witness the timezone-normalization claim. -/
def naiveDt : Datetime := ⟨2023, 5, 1, 12, 0, 0, none⟩

/-- Time entry with no end and no project, used to witness falsy-field
omission. -/
def simpleEntry : TimeEntry :=
  { obj_id := Val.vstr "b",
    start := some ⟨2023, 1, 1, 10, 0, 0, some TZ.utc⟩,
    description := Val.vstr "w" }

/-- Wire dictionary produced by serializing `simpleEntry`. -/
def simpleDict : PyDict :=
  [("id", Val.vstr "b"), ("start", Val.vstr "2023-01-01T10:00:00Z"),
   ("description", Val.vstr "w"), ("billable", Val.vstr "false")]

/-- A forty-character string, used to witness display truncation. -/
def s40 : String := String.mk (List.replicate 40 'x')

/-- Response dictionary in which every key the time-entry parser reads is
present. -/
def fullDict : PyDict :=
  [("id", Val.vstr "a"), ("description", Val.vstr "d"), ("projectId", Val.vstr "p"),
   ("timeInterval", Val.vdict
      [("start", Val.vstr "2023-01-01T10:00:00Z"),
       ("end", Val.vstr "2023-01-01T11:00:00Z")])]

/-- The time entry `fullDict` parses to. -/
def fullEntry : TimeEntry :=
  { obj_id := Val.vstr "a",
    start := some ⟨2023, 1, 1, 10, 0, 0, some TZ.utc⟩,
    description := Val.vstr "d",
    project := some (ProjectStub (Val.vstr "p")),
    end_ := some ⟨2023, 1, 1, 11, 0, 0, some TZ.utc⟩,
    billable := Val.vstr "false" }

lemma pyLookup_cons_ne (k₂ k : String) (v : Val) (rest : PyDict) (h : ¬ k₂ = k) :
    pyLookup ((k₂, v) :: rest) k = pyLookup rest k := by
  simp only [pyLookup]
  rw [if_neg h]

lemma pyLookup_append_none (l₁ l₂ : PyDict) (k : String)
    (h₁ : pyLookup l₁ k = none) (h₂ : pyLookup l₂ k = none) :
    pyLookup (l₁ ++ l₂) k = none := by
  induction l₁ with
  | nil => simpa using h₂
  | cons kv rest ih =>
    obtain ⟨k₂, v⟩ := kv
    by_cases hk : k₂ = k
    · simp only [pyLookup] at h₁
      rw [if_pos hk] at h₁
      exact Option.noConfusion h₁
    · simp only [pyLookup] at h₁
      rw [if_neg hk] at h₁
      rw [List.cons_append, pyLookup_cons_ne _ _ _ _ hk]
      exact ih h₁

lemma pyLookup_filter_none (p : String × Val → Bool) (l : PyDict) (k : String)
    (h : pyLookup l k = none) : pyLookup (l.filter p) k = none := by
  induction l with
  | nil => simpa using h
  | cons kv rest ih =>
    obtain ⟨k₂, v⟩ := kv
    simp only [pyLookup] at h
    by_cases hk : k₂ = k
    · rw [if_pos hk] at h
      exact Option.noConfusion h
    · rw [if_neg hk] at h
      rw [List.filter_cons]
      by_cases hp : p (k₂, v) = true
      · rw [if_pos hp, pyLookup_cons_ne _ _ _ _ hk]
        exact ih h
      · rw [if_neg hp]
        exact ih h

lemma all_filter_self (p : String × Val → Bool) (l : PyDict) :
    (l.filter p).all p = true := by
  induction l with
  | nil => rfl
  | cons kv rest ih =>
    rw [List.filter_cons]
    by_cases hp : p kv = true
    · rw [if_pos hp]
      simp [List.all_cons, hp, ih]
    · rw [if_neg hp]
      exact ih

lemma get_item_cons_ne (k₂ k : String) (v : Val) (d : PyDict) (b : Bool)
    (h : ¬ k₂ = k) :
    APIObject.get_item ((k₂, v) :: d) k b = APIObject.get_item d k b := by
  unfold APIObject.get_item
  rw [pyLookup_cons_ne _ _ _ _ h]

lemma to_dict_pyLookup_none (loc : Int) (e : TimeEntry) (d : PyDict) (k : String)
    (h : TimeEntry.to_dict loc e = some d)
    (hk1 : ¬ "id" = k) (hk2 : ¬ "start" = k) (hk3 : ¬ "description" = k)
    (hk4 : ¬ "billable" = k) (hk5 : ¬ "end" = k) (hk6 : ¬ "projectId" = k) :
    pyLookup d k = none := by
  unfold TimeEntry.to_dict at h
  cases hs : e.start with
  | none =>
    rw [hs] at h
    exact Option.noConfusion h
  | some st =>
    rw [hs] at h
    have hd := Option.some.inj h
    subst hd
    apply pyLookup_filter_none
    apply pyLookup_append_none
    · apply pyLookup_append_none
      · rw [pyLookup_cons_ne _ _ _ _ hk1, pyLookup_cons_ne _ _ _ _ hk2,
            pyLookup_cons_ne _ _ _ _ hk3, pyLookup_cons_ne _ _ _ _ hk4]
        rfl
      · cases hE : e.end_ with
        | none => rfl
        | some en =>
          rw [pyLookup_cons_ne _ _ _ _ hk5]
          rfl
    · cases hP : e.project with
      | none => rfl
      | some p =>
        rw [pyLookup_cons_ne _ _ _ _ hk6]
        rfl

lemma digitChar_wire (n : Nat) : wireChar (digitChar n) = true := by
  unfold digitChar
  split <;> rfl

lemma natCharsAux_wire (fuel n : Nat) : (natCharsAux fuel n).all wireChar = true := by
  induction fuel generalizing n with
  | zero => rfl
  | succ f ih =>
    unfold natCharsAux
    split
    · simp [digitChar_wire]
    · simp [List.all_append, digitChar_wire, ih]

lemma natChars_wire (n : Nat) : (natChars n).all wireChar = true :=
  natCharsAux_wire _ _

lemma replicate_wire (n : Nat) (c : Char) (h : wireChar c = true) :
    (List.replicate n c).all wireChar = true := by
  induction n with
  | zero => rfl
  | succ m ih => simp [List.replicate, h, ih]

lemma zfill_wire (w : Nat) (l : List Char) (h : l.all wireChar = true) :
    (zfill w l).all wireChar = true := by
  unfold zfill
  simp [List.all_append, replicate_wire _ '0' rfl, h]

/-- C1 (counterexample): for the concrete in-process time entry `rtEntry`,
parsing the dictionary produced by its wire serialization does not reproduce
the entry — it raises `ObjectParseException`, because `to_dict` emits a flat
`start` key while `init_from_dict` requires the nested `timeInterval`
dictionary. -/
theorem c1_roundtrip_counterexample :
    (TimeEntry.to_dict 0 rtEntry).map TimeEntry.init_from_dict
      = some (Except.error (PyErr.objectParse "Could not find key timeInterval")) := rfl

/-- C1 (amended): for every time entry whose wire serialization succeeds,
parsing the produced dictionary back through `TimeEntry.init_from_dict` fails
with `ObjectParseException` on the missing `timeInterval` key: the write
shape (flat `start`) and the read shape (nested `timeInterval`) differ, so
the round trip never succeeds. -/
theorem c1_roundtrip_parse_error (loc : Int) (e : TimeEntry) (d : PyDict)
    (h : TimeEntry.to_dict loc e = some d) :
    TimeEntry.init_from_dict d
      = Except.error (PyErr.objectParse "Could not find key timeInterval") := by
  have hnone : pyLookup d "timeInterval" = none :=
    to_dict_pyLookup_none loc e d "timeInterval" h (by decide) (by decide)
      (by decide) (by decide) (by decide) (by decide)
  unfold TimeEntry.init_from_dict APIObject.get_item
  rw [hnone]
  rfl

/-- C1 (witness): the amended statement applied to the concrete entry
`rtEntry`, whose serialization is `rtDict`. -/
theorem c1_roundtrip_parse_error_witness :
    TimeEntry.to_dict 0 rtEntry = some rtDict
    ∧ TimeEntry.init_from_dict rtDict
        = Except.error (PyErr.objectParse "Could not find key timeInterval") :=
  ⟨rfl, c1_roundtrip_parse_error 0 rtEntry rtDict rfl⟩

/-- C2: contrary to the claim (and to the docstring of `get_item`), a missing
key raises `ObjectParseException` even when `raise_error` is `False`; the
flag is ignored entirely. -/
theorem c2_get_item_always_raises :
    APIObject.get_item [("a", Val.vstr "1")] "b" false
      = Except.error (PyErr.objectParse "Could not find key b")
    ∧ APIObject.get_item ([] : PyDict) "k" false
      = Except.error (PyErr.objectParse "Could not find key k")
    ∧ APIObject.get_item ([] : PyDict) "k" true
      = Except.error (PyErr.objectParse "Could not find key k") := ⟨rfl, rfl, rfl⟩

/-- C3: on the example input with `id` and a parsable `timeInterval.start`
but no optional keys, `TimeEntry.init_from_dict` does not succeed: the start
string parses fine, but the lookup of the optional `description` key raises
`ObjectParseException` because `get_item` ignores `raise_error=False`. -/
theorem c3_missing_optional_keys_raise :
    parseDate "2023-01-01T10:00:00Z" = some ⟨2023, 1, 1, 10, 0, 0, some TZ.utc⟩
    ∧ TimeEntry.init_from_dict timeEntryDict3
      = Except.error (PyErr.objectParse "Could not find key description") := ⟨rfl, rfl⟩

/-- C4: the default construction path for a plain Entity is broken: on a
dictionary containing only `id` it raises `ObjectParseException` about the
missing `name`, and even with both keys present it raises `TypeError`,
because `APIObject.__init__` accepts no `name` argument. The Named Entity
path behaves as claimed: missing `id` raises `ObjectParseException`, and
`id` plus `name` constructs the object. -/
theorem c4_default_construction_paths :
    APIObject.init_from_dict [("id", Val.vstr "a")]
      = Except.error (PyErr.objectParse "Could not find key name")
    ∧ APIObject.init_from_dict [("id", Val.vstr "a"), ("name", Val.vstr "b")]
      = Except.error PyErr.typeError
    ∧ NamedAPIObject.init_from_dict [("name", Val.vstr "x")]
      = Except.error (PyErr.objectParse "Could not find key id")
    ∧ NamedAPIObject.init_from_dict [("id", Val.vstr "a"), ("name", Val.vstr "b")]
      = Except.ok ⟨Val.vstr "a", Val.vstr "b"⟩ := ⟨rfl, rfl, rfl, rfl⟩

/-- C5 (counterexample): an empty string is present and cannot be parsed as a
datetime, yet `get_datetime` returns `None` instead of raising — a present
falsy value short-circuits before parsing, whichever flag is passed. -/
theorem c5_empty_string_no_error :
    parseDate "" = none
    ∧ APIObject.get_datetime [("start", Val.vstr "")] "start" false = Except.ok none
    ∧ APIObject.get_datetime [("start", Val.vstr "")] "start" true = Except.ok none :=
  ⟨rfl, rfl, rfl⟩

/-- C5 (amended): whenever the requested key maps to a non-empty string that
cannot be parsed as a datetime, `get_datetime` raises `ObjectParseException`
regardless of the `raise_error` flag; only a missing or falsy value escapes
parsing. -/
theorem c5_truthy_unparsable_raises (d : PyDict) (k s : String) (b : Bool)
    (h₁ : pyLookup d k = some (Val.vstr s)) (h₂ : ¬ s = "")
    (h₃ : parseDate s = none) :
    APIObject.get_datetime d k b
      = Except.error (PyErr.objectParse ("Error parsing " ++ s ++ " to datetime")) := by
  have ht : truthy (Val.vstr s) = true := by
    simp [truthy]
    exact h₂
  unfold APIObject.get_datetime APIObject.get_item ClockifyDatetime.init_from_string
  rw [h₁]
  simp only [ht, if_true, h₃, Option.map_none']

/-- C5 (witness): the amended statement applied to the example
`{"start": "not-a-date"}` with the field marked optional. -/
theorem c5_truthy_unparsable_raises_witness :
    APIObject.get_datetime [("start", Val.vstr "not-a-date")] "start" false
      = Except.error (PyErr.objectParse "Error parsing not-a-date to datetime") :=
  c5_truthy_unparsable_raises [("start", Val.vstr "not-a-date")] "start"
    "not-a-date" false rfl (by decide) rfl

/-- C6: constructing a `ClockifyDatetime` from a timezone-naive timestamp
attaches the local timezone (never UTC), so its wire string equals that of
the equivalent timestamp carrying the local timezone explicitly, for every
local offset. -/
theorem c6_naive_timestamp_local_tz (loc : Int) (d : Datetime) (h : d.tz = none) :
    (ClockifyDatetime.ofDatetime d).datetime.tz = some TZ.tzlocal
    ∧ ClockifyDatetime.clockify_datetime loc (ClockifyDatetime.ofDatetime d)
      = ClockifyDatetime.clockify_datetime loc
          (ClockifyDatetime.ofDatetime { d with tz := some TZ.tzlocal }) := by
  unfold ClockifyDatetime.ofDatetime
  rw [if_pos h, if_neg (by simp)]
  exact ⟨rfl, rfl⟩

/-- C6 (witness): the statement at the concrete naive timestamp `naiveDt`
with local offset +60 minutes. -/
theorem c6_naive_timestamp_local_tz_witness :
    (ClockifyDatetime.ofDatetime naiveDt).datetime.tz = some TZ.tzlocal
    ∧ ClockifyDatetime.clockify_datetime 60 (ClockifyDatetime.ofDatetime naiveDt)
      = ClockifyDatetime.clockify_datetime 60
          (ClockifyDatetime.ofDatetime { naiveDt with tz := some TZ.tzlocal }) :=
  c6_naive_timestamp_local_tz 60 naiveDt rfl

/-- C7: for every `ClockifyDatetime` and local offset, the wire string is the
UTC projection rendered with the fixed pattern `%Y-%m-%dT%H:%M:%SZ`, its last
character is the literal `Z`, and every character is a digit or one of the
fixed separators — so it never carries a numeric offset. -/
theorem c7_wire_string_format (loc : Int) (c : ClockifyDatetime) :
    ClockifyDatetime.clockify_datetime loc c
        = strftimeClockify (c.datetime_utc loc)
    ∧ (ClockifyDatetime.clockify_datetime loc c).data.getLast? = some 'Z'
    ∧ (ClockifyDatetime.clockify_datetime loc c).data.all wireChar = true := by
  refine ⟨rfl, ?_, ?_⟩
  · show (strftimeClockify (c.datetime_utc loc)).data.getLast? = some 'Z'
    unfold strftimeClockify
    exact List.getLast?_concat _
  · show (strftimeClockify (c.datetime_utc loc)).data.all wireChar = true
    unfold strftimeClockify
    simp [List.all_append, zfill_wire, natChars_wire]
    exact ⟨rfl, rfl, rfl, rfl⟩

/-- C8: the wire dictionary of every time entry contains no falsy value, and
when `end` (resp. `project`) is unset the `end` (resp. `projectId`) key is
absent altogether. -/
theorem c8_to_dict_no_falsy (loc : Int) (e : TimeEntry) (d : PyDict)
    (h : TimeEntry.to_dict loc e = some d) :
    d.all (fun kv => truthy kv.2) = true
    ∧ (e.end_ = none → pyLookup d "end" = none)
    ∧ (e.project = none → pyLookup d "projectId" = none) := by
  unfold TimeEntry.to_dict at h
  cases hs : e.start with
  | none =>
    rw [hs] at h
    exact Option.noConfusion h
  | some st =>
    rw [hs] at h
    have hd := Option.some.inj h
    subst hd
    refine ⟨all_filter_self _ _, ?_, ?_⟩
    · intro hE
      apply pyLookup_filter_none
      apply pyLookup_append_none
      · apply pyLookup_append_none
        · rw [pyLookup_cons_ne _ _ _ _ (by decide), pyLookup_cons_ne _ _ _ _ (by decide),
              pyLookup_cons_ne _ _ _ _ (by decide), pyLookup_cons_ne _ _ _ _ (by decide)]
          rfl
        · rw [hE]
          rfl
      · cases hP : e.project with
        | none => rfl
        | some p =>
          rw [pyLookup_cons_ne _ _ _ _ (by decide)]
          rfl
    · intro hP
      apply pyLookup_filter_none
      apply pyLookup_append_none
      · apply pyLookup_append_none
        · rw [pyLookup_cons_ne _ _ _ _ (by decide), pyLookup_cons_ne _ _ _ _ (by decide),
              pyLookup_cons_ne _ _ _ _ (by decide), pyLookup_cons_ne _ _ _ _ (by decide)]
          rfl
        · cases hE : e.end_ with
          | none => rfl
          | some en =>
            rw [pyLookup_cons_ne _ _ _ _ (by decide)]
            rfl
      · rw [hP]
        rfl

/-- C8 (witness): the statement at the concrete entry `simpleEntry` (no end,
no project), whose serialization is `simpleDict`. -/
theorem c8_to_dict_no_falsy_witness :
    simpleDict.all (fun kv => truthy kv.2) = true
    ∧ pyLookup simpleDict "end" = none
    ∧ pyLookup simpleDict "projectId" = none := by
  have h := c8_to_dict_no_falsy 0 simpleEntry simpleDict (by rfl)
  exact ⟨h.1, h.2.1 rfl, h.2.2 rfl⟩

/-- C9: with the default limit 30, `TimeEntry.truncate` maps every string
longer than 30 characters to a 30-character string ending in `...`, and
returns every string of at most 30 characters unchanged. -/
theorem c9_truncate_default (s : String) :
    (30 < s.data.length →
      (TimeEntry.truncate s 30).data.length = 30
      ∧ (TimeEntry.truncate s 30).data.drop 27 = ['.', '.', '.'])
    ∧ (s.data.length ≤ 30 → TimeEntry.truncate s 30 = s) := by
  constructor
  · intro h
    have h₁ : pySliceFrom s.data 30 = s.data.drop 30 := rfl
    have h₂ : pySliceTo s.data (30 - 3) = s.data.take 27 := rfl
    have hcond : s.data.drop 30 ≠ [] := by
      intro hc
      have hlen := congrArg List.length hc
      rw [List.length_drop, List.length_nil] at hlen
      omega
    unfold TimeEntry.truncate
    rw [h₁, h₂, if_pos hcond]
    have hdata : (String.mk (s.data.take 27) ++ "...").data
        = s.data.take 27 ++ ['.', '.', '.'] := rfl
    constructor
    · show (String.mk (s.data.take 27) ++ "...").data.length = 30
      rw [hdata, List.length_append, List.length_take, List.length_cons,
          List.length_cons, List.length_cons, List.length_nil]
      omega
    · show (String.mk (s.data.take 27) ++ "...").data.drop 27 = ['.', '.', '.']
      rw [hdata]
      have hlen : (s.data.take 27).length = 27 := by
        rw [List.length_take]
        omega
      calc (s.data.take 27 ++ ['.', '.', '.']).drop 27
          = (s.data.take 27 ++ ['.', '.', '.']).drop (s.data.take 27).length := by
            rw [hlen]
        _ = ['.', '.', '.'] := List.drop_left _ _
  · intro h
    have h₁ : pySliceFrom s.data 30 = s.data.drop 30 := rfl
    have hnil : s.data.drop 30 = [] := List.drop_eq_nil_of_le h
    unfold TimeEntry.truncate
    rw [h₁, hnil, if_neg (by simp)]

/-- C9 (witness): truncating a 40-character string yields a 30-character
string ending in `...`; a 5-character string is returned unchanged. -/
theorem c9_truncate_default_witness :
    ((TimeEntry.truncate s40 30).data.length = 30
     ∧ (TimeEntry.truncate s40 30).data.drop 27 = ['.', '.', '.'])
    ∧ TimeEntry.truncate "short" 30 = "short" :=
  ⟨(c9_truncate_default s40).1 (by decide), (c9_truncate_default "short").2 (by decide)⟩

/-- C10: every dictionary that `TimeEntry.init_from_dict` parses successfully
yields an entry whose `billable` is the default `'false'`, and a `billable`
key in the input is never read: prepending one leaves the parse outcome
unchanged. -/
theorem c10_billable_default_always :
    (∀ (d : PyDict) (e : TimeEntry),
        TimeEntry.init_from_dict d = Except.ok e → e.billable = Val.vstr "false")
    ∧ ∀ (d : PyDict) (v : Val),
        TimeEntry.init_from_dict (("billable", v) :: d) = TimeEntry.init_from_dict d := by
  constructor
  · intro d e h
    unfold TimeEntry.init_from_dict at h
    repeat' split at h
    all_goals first
      | exact Except.noConfusion h
      | (injection h with h
         rw [← h])
  · intro d v
    have h1 := get_item_cons_ne "billable" "timeInterval" v d true (by decide)
    have h2 := get_item_cons_ne "billable" "id" v d true (by decide)
    have h3 := get_item_cons_ne "billable" "description" v d false (by decide)
    have h4 := get_item_cons_ne "billable" "projectId" v d false (by decide)
    unfold TimeEntry.init_from_dict
    rw [h1]
    simp only [h2, h3, h4]

/-- C10 (witness): the statement at the concrete response dictionary
`fullDict`, which parses successfully to `fullEntry`. -/
theorem c10_billable_default_always_witness :
    TimeEntry.init_from_dict fullDict = Except.ok fullEntry
    ∧ fullEntry.billable = Val.vstr "false" :=
  ⟨rfl, c10_billable_default_always.1 fullDict fullEntry rfl⟩
